import Mathlib

/-!
Verification development for the MPM geomechanics core: the persisted HDF5
particle record tables (`src/hdf5_particle.cc`), the 8-node and 20-node
hexahedron elements (`include/elements/3d/hexahedron_element.tcc`), the
B-spline hexahedron element (`include/elements/3d/hexahedron_bspline_element.tcc`)
and the cell point-location interface (`include/cells/cell.h`).

Doubles are modelled by exact scalars: `ℚ` where decidable evaluation is
needed, `ℝ` where claims speak about derivatives.  The floating-point literals
in the source (0.125, 0.25, 0.5) are exactly representable, so the polynomial
shape-function formulas transcribe exactly.
-/

/- ================================================================
   Part 1: the persisted particle record (src/hdf5_particle.cc)
   ================================================================ -/

/-- The HDF5 native type identifiers appearing in the `field_type` table.
`zeroInit` stands for a value-initialised `hid_t` (0): the C++ array
`const hid_t field_type[NFIELDS]` supplies fewer initialisers than `NFIELDS`,
and the remaining elements are zero-initialised, which is not a valid HDF5
type identifier. -/
inductive HidType where
  | nativeLLong
  | nativeDouble
  | nativeHBool
  | nativeUInt
  | zeroInit
  deriving DecidableEq, Repr

/-- The 56 field names of the persisted particle record, transcribed from the
`field_names` table of `src/hdf5_particle.cc` (lines 126-183). -/
def field_names : List String :=
  ["id", "mass", "volume", "pressure",
   "coord_x", "coord_y", "coord_z",
   "displacement_x", "displacement_y", "displacement_z",
   "nsize_x", "nsize_y", "nsize_z",
   "velocity_x", "velocity_y", "velocity_z",
   "acceleration_x", "acceleration_y", "acceleration_z",
   "stress_xx", "stress_yy", "stress_zz",
   "tau_xy", "tau_yz", "tau_xz",
   "strain_xx", "strain_yy", "strain_zz",
   "gamma_xy", "gamma_yz", "gamma_xz",
   "epsilon_v", "status", "cell_id", "material_id", "nstate_vars",
   "svars_0", "svars_1", "svars_2", "svars_3", "svars_4",
   "svars_5", "svars_6", "svars_7", "svars_8", "svars_9",
   "svars_10", "svars_11", "svars_12", "svars_13", "svars_14",
   "svars_15", "svars_16", "svars_17", "svars_18", "svars_19"]

/-- The `field_type` table of `src/hdf5_particle.cc` (lines 186-200), in
source order: `H5T_NATIVE_LLONG`, then 28 `H5T_NATIVE_DOUBLE`, then
`H5T_NATIVE_HBOOL`, `H5T_NATIVE_LLONG`, `H5T_NATIVE_UINT`, `H5T_NATIVE_UINT`,
then 20 `H5T_NATIVE_DOUBLE` - 53 initialisers in total.  The array is
declared with `NFIELDS` (= 56, the length of `field_names`, `dst_offset`
and `dst_sizes`) elements, so the last three elements are zero-initialised. -/
def field_type : List HidType :=
  [.nativeLLong] ++ List.replicate 28 .nativeDouble ++
  [.nativeHBool, .nativeLLong, .nativeUInt, .nativeUInt] ++
  List.replicate 20 .nativeDouble ++ List.replicate 3 .zeroInit

/-- The field-type table as the specification describes it: one entry per
field, a 64-bit integer for `id` (index 0) and `cell_id` (index 33), a
boolean for `status` (index 32), an unsigned integer for `material_id`
(index 34) and `nstate_vars` (index 35), and a double for each of the 31
floating-point fields in between and the 20 state-variable slots. -/
def spec_field_type : List HidType :=
  [.nativeLLong] ++ List.replicate 31 .nativeDouble ++
  [.nativeHBool, .nativeLLong, .nativeUInt, .nativeUInt] ++
  List.replicate 20 .nativeDouble

/- ================================================================
   Part 2: hexahedron shape functions and gradients
   (include/elements/3d/hexahedron_element.tcc)
   ================================================================ -/

/-- `HexahedronElement<3, 8>::shapefn` (hexahedron_element.tcc lines 19-35).
The `particle_size` and `deformation_gradient` arguments of the source are
unused by the Lagrange elements and omitted here. -/
def hex8_shapefn {K : Type} [Field K] (xi : Fin 3 → K) : Fin 8 → K :=
  ![(1/8) * (1 - xi 0) * (1 - xi 1) * (1 - xi 2),
    (1/8) * (1 + xi 0) * (1 - xi 1) * (1 - xi 2),
    (1/8) * (1 + xi 0) * (1 + xi 1) * (1 - xi 2),
    (1/8) * (1 - xi 0) * (1 + xi 1) * (1 - xi 2),
    (1/8) * (1 - xi 0) * (1 - xi 1) * (1 + xi 2),
    (1/8) * (1 + xi 0) * (1 - xi 1) * (1 + xi 2),
    (1/8) * (1 + xi 0) * (1 + xi 1) * (1 + xi 2),
    (1/8) * (1 - xi 0) * (1 + xi 1) * (1 + xi 2)]

/-- `HexahedronElement<3, 8>::grad_shapefn` (hexahedron_element.tcc lines
41-74), row `i` column `j` being entry `(i, j)` of the returned matrix. -/
def hex8_grad_shapefn {K : Type} [Field K] (xi : Fin 3 → K) : Fin 8 → Fin 3 → K :=
  ![![-(1/8) * (1 - xi 1) * (1 - xi 2),
      -(1/8) * (1 - xi 0) * (1 - xi 2),
      -(1/8) * (1 - xi 0) * (1 - xi 1)],
    ![ (1/8) * (1 - xi 1) * (1 - xi 2),
      -(1/8) * (1 + xi 0) * (1 - xi 2),
      -(1/8) * (1 + xi 0) * (1 - xi 1)],
    ![ (1/8) * (1 + xi 1) * (1 - xi 2),
       (1/8) * (1 + xi 0) * (1 - xi 2),
      -(1/8) * (1 + xi 0) * (1 + xi 1)],
    ![-(1/8) * (1 + xi 1) * (1 - xi 2),
       (1/8) * (1 - xi 0) * (1 - xi 2),
      -(1/8) * (1 - xi 0) * (1 + xi 1)],
    ![-(1/8) * (1 - xi 1) * (1 + xi 2),
      -(1/8) * (1 - xi 0) * (1 + xi 2),
       (1/8) * (1 - xi 0) * (1 - xi 1)],
    ![ (1/8) * (1 - xi 1) * (1 + xi 2),
      -(1/8) * (1 + xi 0) * (1 + xi 2),
       (1/8) * (1 + xi 0) * (1 - xi 1)],
    ![ (1/8) * (1 + xi 1) * (1 + xi 2),
       (1/8) * (1 + xi 0) * (1 + xi 2),
       (1/8) * (1 + xi 0) * (1 + xi 1)],
    ![-(1/8) * (1 + xi 1) * (1 + xi 2),
       (1/8) * (1 - xi 0) * (1 + xi 2),
       (1/8) * (1 - xi 0) * (1 + xi 1)]]

/-- `HexahedronElement<3, 8>::unit_cell_coordinates`
(hexahedron_element.tcc lines 77-94). -/
def hex8_unit_cell {K : Type} [Field K] : Fin 8 → Fin 3 → K :=
  ![![-1, -1, -1],
    ![ 1, -1, -1],
    ![ 1,  1, -1],
    ![-1,  1, -1],
    ![-1, -1,  1],
    ![ 1, -1,  1],
    ![ 1,  1,  1],
    ![-1,  1,  1]]

/-- `HexahedronElement<3, 20>::shapefn` (hexahedron_element.tcc lines
116-152); entries listed in index order 0..19 (the source assigns indices
8..19 out of order, the values here are the ones assigned to each index). -/
def hex20_shapefn {K : Type} [Field K] (xi : Fin 3 → K) : Fin 20 → K :=
  ![-(1/8) * (1 - xi 0) * (1 - xi 1) * (1 - xi 2) * (2 + xi 0 + xi 1 + xi 2),
    -(1/8) * (1 + xi 0) * (1 - xi 1) * (1 - xi 2) * (2 - xi 0 + xi 1 + xi 2),
    -(1/8) * (1 + xi 0) * (1 + xi 1) * (1 - xi 2) * (2 - xi 0 - xi 1 + xi 2),
    -(1/8) * (1 - xi 0) * (1 + xi 1) * (1 - xi 2) * (2 + xi 0 - xi 1 + xi 2),
    -(1/8) * (1 - xi 0) * (1 - xi 1) * (1 + xi 2) * (2 + xi 0 + xi 1 - xi 2),
    -(1/8) * (1 + xi 0) * (1 - xi 1) * (1 + xi 2) * (2 - xi 0 + xi 1 - xi 2),
    -(1/8) * (1 + xi 0) * (1 + xi 1) * (1 + xi 2) * (2 - xi 0 - xi 1 - xi 2),
    -(1/8) * (1 - xi 0) * (1 + xi 1) * (1 + xi 2) * (2 + xi 0 - xi 1 - xi 2),
    (1/4) * (1 - xi 0 * xi 0) * (1 - xi 1) * (1 - xi 2),
    (1/4) * (1 - xi 1 * xi 1) * (1 - xi 0) * (1 - xi 2),
    (1/4) * (1 - xi 2 * xi 2) * (1 - xi 0) * (1 - xi 1),
    (1/4) * (1 - xi 1 * xi 1) * (1 + xi 0) * (1 - xi 2),
    (1/4) * (1 - xi 2 * xi 2) * (1 + xi 0) * (1 - xi 1),
    (1/4) * (1 - xi 0 * xi 0) * (1 + xi 1) * (1 - xi 2),
    (1/4) * (1 - xi 2 * xi 2) * (1 + xi 0) * (1 + xi 1),
    (1/4) * (1 - xi 2 * xi 2) * (1 - xi 0) * (1 + xi 1),
    (1/4) * (1 - xi 0 * xi 0) * (1 - xi 1) * (1 + xi 2),
    (1/4) * (1 - xi 1 * xi 1) * (1 - xi 0) * (1 + xi 2),
    (1/4) * (1 - xi 1 * xi 1) * (1 + xi 0) * (1 + xi 2),
    (1/4) * (1 - xi 0 * xi 0) * (1 + xi 1) * (1 + xi 2)]

/-- `HexahedronElement<3, 20>::grad_shapefn` (hexahedron_element.tcc lines
158-252), row `i` being `(grad_shapefn(i,0), grad_shapefn(i,1),
grad_shapefn(i,2))` exactly as assigned in the source (including the
`(1 - xi(1))` factors of rows 3 and 7 in columns 1 and 2). -/
def hex20_grad_shapefn {K : Type} [Field K] (xi : Fin 3 → K) : Fin 20 → Fin 3 → K :=
  ![![ (1/8) * (2 * xi 0 + xi 1 + xi 2 + 1) * (1 - xi 1) * (1 - xi 2),
       (1/8) * (xi 0 + 2 * xi 1 + xi 2 + 1) * (1 - xi 0) * (1 - xi 2),
       (1/8) * (xi 0 + xi 1 + 2 * xi 2 + 1) * (1 - xi 0) * (1 - xi 1)],
    ![-(1/8) * (-2 * xi 0 + xi 1 + xi 2 + 1) * (1 - xi 1) * (1 - xi 2),
       (1/8) * (-xi 0 + 2 * xi 1 + xi 2 + 1) * (1 + xi 0) * (1 - xi 2),
       (1/8) * (-xi 0 + xi 1 + 2 * xi 2 + 1) * (1 + xi 0) * (1 - xi 1)],
    ![-(1/8) * (-2 * xi 0 - xi 1 + xi 2 + 1) * (1 + xi 1) * (1 - xi 2),
      -(1/8) * (-xi 0 - 2 * xi 1 + xi 2 + 1) * (1 + xi 0) * (1 - xi 2),
       (1/8) * (-xi 0 - xi 1 + 2 * xi 2 + 1) * (1 + xi 0) * (1 + xi 1)],
    ![ (1/8) * (2 * xi 0 - xi 1 + xi 2 + 1) * (1 + xi 1) * (1 - xi 2),
      -(1/8) * (xi 0 - 2 * xi 1 + xi 2 + 1) * (1 - xi 1) * (1 - xi 2),
       (1/8) * (xi 0 - xi 1 + 2 * xi 2 + 1) * (1 - xi 1) * (1 + xi 1)],
    ![ (1/8) * (2 * xi 0 + xi 1 - xi 2 + 1) * (1 - xi 1) * (1 + xi 2),
       (1/8) * (xi 0 + 2 * xi 1 - xi 2 + 1) * (1 - xi 0) * (1 + xi 2),
      -(1/8) * (xi 0 + xi 1 - 2 * xi 2 + 1) * (1 - xi 0) * (1 - xi 1)],
    ![-(1/8) * (-2 * xi 0 + xi 1 - xi 2 + 1) * (1 - xi 1) * (1 + xi 2),
       (1/8) * (-xi 0 + 2 * xi 1 - xi 2 + 1) * (1 + xi 0) * (1 + xi 2),
      -(1/8) * (-xi 0 + xi 1 - 2 * xi 2 + 1) * (1 + xi 0) * (1 - xi 1)],
    ![-(1/8) * (-2 * xi 0 - xi 1 - xi 2 + 1) * (1 + xi 1) * (1 + xi 2),
      -(1/8) * (-xi 0 - 2 * xi 1 - xi 2 + 1) * (1 + xi 0) * (1 + xi 2),
      -(1/8) * (-xi 0 - xi 1 - 2 * xi 2 + 1) * (1 + xi 0) * (1 + xi 1)],
    ![ (1/8) * (2 * xi 0 - xi 1 - xi 2 + 1) * (1 + xi 1) * (1 + xi 2),
      -(1/8) * (xi 0 - 2 * xi 1 - xi 2 + 1) * (1 - xi 1) * (1 + xi 2),
      -(1/8) * (xi 0 - xi 1 - 2 * xi 2 + 1) * (1 - xi 1) * (1 + xi 1)],
    ![-(1/2) * xi 0 * (1 - xi 1) * (1 - xi 2),
      -(1/4) * (1 - xi 0 * xi 0) * (1 - xi 2),
      -(1/4) * (1 - xi 0 * xi 0) * (1 - xi 1)],
    ![-(1/4) * (1 - xi 1 * xi 1) * (1 - xi 2),
      -(1/2) * xi 1 * (1 - xi 0) * (1 - xi 2),
      -(1/4) * (1 - xi 1 * xi 1) * (1 - xi 0)],
    ![-(1/4) * (1 - xi 2 * xi 2) * (1 - xi 1),
      -(1/4) * (1 - xi 2 * xi 2) * (1 - xi 0),
      -(1/2) * xi 2 * (1 - xi 0) * (1 - xi 1)],
    ![ (1/4) * (1 - xi 1 * xi 1) * (1 - xi 2),
      -(1/2) * xi 1 * (1 + xi 0) * (1 - xi 2),
      -(1/4) * (1 - xi 1 * xi 1) * (1 + xi 0)],
    ![ (1/4) * (1 - xi 2 * xi 2) * (1 - xi 1),
      -(1/4) * (1 - xi 2 * xi 2) * (1 + xi 0),
      -(1/2) * xi 2 * (1 + xi 0) * (1 - xi 1)],
    ![-(1/2) * xi 0 * (1 + xi 1) * (1 - xi 2),
       (1/4) * (1 - xi 0 * xi 0) * (1 - xi 2),
      -(1/4) * (1 - xi 0 * xi 0) * (1 + xi 1)],
    ![ (1/4) * (1 - xi 2 * xi 2) * (1 + xi 1),
       (1/4) * (1 - xi 2 * xi 2) * (1 + xi 0),
      -(1/2) * xi 2 * (1 + xi 0) * (1 + xi 1)],
    ![-(1/4) * (1 - xi 2 * xi 2) * (1 + xi 1),
       (1/4) * (1 - xi 2 * xi 2) * (1 - xi 0),
      -(1/2) * xi 2 * (1 - xi 0) * (1 + xi 1)],
    ![-(1/2) * xi 0 * (1 - xi 1) * (1 + xi 2),
      -(1/4) * (1 - xi 0 * xi 0) * (1 + xi 2),
       (1/4) * (1 - xi 0 * xi 0) * (1 - xi 1)],
    ![-(1/4) * (1 - xi 1 * xi 1) * (1 + xi 2),
      -(1/2) * xi 1 * (1 - xi 0) * (1 + xi 2),
       (1/4) * (1 - xi 1 * xi 1) * (1 - xi 0)],
    ![ (1/4) * (1 - xi 1 * xi 1) * (1 + xi 2),
      -(1/2) * xi 1 * (1 + xi 0) * (1 + xi 2),
       (1/4) * (1 - xi 1 * xi 1) * (1 + xi 0)],
    ![-(1/2) * xi 0 * (1 + xi 1) * (1 + xi 2),
       (1/4) * (1 - xi 0 * xi 0) * (1 + xi 2),
       (1/4) * (1 - xi 0 * xi 0) * (1 + xi 1)]]

/- ================================================================
   Part 3: dynamic-size matrices (Eigen::MatrixXd over exact scalars)
   and the element-level matrix operations
   ================================================================ -/

/-- A dynamic-size matrix of rationals, modelling `Eigen::MatrixXd`:
explicit row/column counts plus row-major data.  Out-of-range reads
return 0; the embedded operations only read in range whenever the
source's dimension guards pass, mirroring Eigen's precondition that
operand dimensions agree. -/
structure MatQ where
  rows : ℕ
  cols : ℕ
  data : List (List ℚ)
  deriving DecidableEq, Repr

/-- Entry `(i, j)` of a `MatQ` (0 outside the stored data). -/
def MatQ.entry (M : MatQ) (i j : ℕ) : ℚ := (M.data.getD i []).getD j 0

/-- Build an `r × c` matrix from an entry function. -/
def MatQ.ofFn (r c : ℕ) (f : ℕ → ℕ → ℚ) : MatQ :=
  ⟨r, c, (List.range r).map fun i => (List.range c).map fun j => f i j⟩

/-- The `r × c` zero matrix (`Eigen::MatrixXd::Zero(r, c)`). -/
def MatQ.zeroM (r c : ℕ) : MatQ := MatQ.ofFn r c fun _ _ => 0

/-- Matrix transpose. -/
def MatQ.transposeM (M : MatQ) : MatQ := MatQ.ofFn M.cols M.rows fun i j => M.entry j i

/-- Matrix product; the contraction length is the left operand's column
count, as in Eigen (whose precondition `A.cols() == B.rows()` holds at
every use site reached with the source's dimension guards passing). -/
def MatQ.mulM (A B : MatQ) : MatQ :=
  MatQ.ofFn A.rows B.cols fun i j =>
    ((List.range A.cols).map fun k => A.entry i k * B.entry k j).sum

/-- Matrix sum (entrywise, with the left operand's dimensions). -/
def MatQ.addM (A B : MatQ) : MatQ :=
  MatQ.ofFn A.rows A.cols fun i j => A.entry i j + B.entry i j

/-- Determinant of the leading 3×3 block, by cofactor expansion - the
formula Eigen uses for fixed-size 3×3 matrices. -/
def MatQ.det3 (M : MatQ) : ℚ :=
  M.entry 0 0 * (M.entry 1 1 * M.entry 2 2 - M.entry 1 2 * M.entry 2 1) -
  M.entry 0 1 * (M.entry 1 0 * M.entry 2 2 - M.entry 1 2 * M.entry 2 0) +
  M.entry 0 2 * (M.entry 1 0 * M.entry 2 1 - M.entry 1 1 * M.entry 2 0)

/-- Inverse of a 3×3 matrix via the adjugate, `Eigen`'s cofactor formula
for fixed-size 3×3 inverses (`M.inverse()`). -/
def MatQ.inverse3 (M : MatQ) : MatQ :=
  let d := M.det3
  MatQ.ofFn 3 3 fun i j =>
    (match i, j with
     | 0, 0 =>  (M.entry 1 1 * M.entry 2 2 - M.entry 1 2 * M.entry 2 1)
     | 0, 1 => -(M.entry 0 1 * M.entry 2 2 - M.entry 0 2 * M.entry 2 1)
     | 0, 2 =>  (M.entry 0 1 * M.entry 1 2 - M.entry 0 2 * M.entry 1 1)
     | 1, 0 => -(M.entry 1 0 * M.entry 2 2 - M.entry 1 2 * M.entry 2 0)
     | 1, 1 =>  (M.entry 0 0 * M.entry 2 2 - M.entry 0 2 * M.entry 2 0)
     | 1, 2 => -(M.entry 0 0 * M.entry 1 2 - M.entry 0 2 * M.entry 1 0)
     | 2, 0 =>  (M.entry 1 0 * M.entry 2 1 - M.entry 1 1 * M.entry 2 0)
     | 2, 1 => -(M.entry 0 0 * M.entry 2 1 - M.entry 0 1 * M.entry 2 0)
     | 2, 2 =>  (M.entry 0 0 * M.entry 1 1 - M.entry 0 1 * M.entry 1 0)
     | _, _ => 0) / d

/-- The capability surface of `mpm::HexahedronElement<3, Tnfunctions>` that
the template element operations consume: the node count and the gradient
matrix at a local coordinate. -/
structure HexElem where
  nfunctions : ℕ
  grad_shapefn : (Fin 3 → ℚ) → MatQ

/-- The 8-node gradient matrix as a `MatQ` (the `Eigen::Matrix<double, 8, 3>`
returned by `HexahedronElement<3, 8>::grad_shapefn`), row by row. -/
def hex8_grad_matq (xi : Fin 3 → ℚ) : MatQ :=
  ⟨8, 3, (List.finRange 8).map fun i => (List.finRange 3).map fun j =>
      hex8_grad_shapefn xi i j⟩

/-- The 20-node gradient matrix as a `MatQ` (the `Eigen::Matrix<double, 20, 3>`
returned by `HexahedronElement<3, 20>::grad_shapefn`), row by row. -/
def hex20_grad_matq (xi : Fin 3 → ℚ) : MatQ :=
  ⟨20, 3, (List.finRange 20).map fun i => (List.finRange 3).map fun j =>
      hex20_grad_shapefn xi i j⟩

/-- `HexahedronElement<3, 8>` as a `HexElem`. -/
def hex8Elem : HexElem := ⟨8, hex8_grad_matq⟩

/-- `HexahedronElement<3, 20>` as a `HexElem`. -/
def hex20Elem : HexElem := ⟨20, hex20_grad_matq⟩

/-- `HexahedronElement::jacobian` (hexahedron_element.tcc lines 265-289):
the guard `grad_shapefn.rows() != nodal_coordinates.rows() || xi.size() !=
nodal_coordinates.cols()` (with `xi.size() = 3`) throws, the catch block
logs and returns `Matrix<double, 3, 3>::Zero()`; otherwise the Jacobian is
`grad_shapefn.transpose() * nodal_coordinates`. -/
def hex_jacobian (elem : HexElem) (xi : Fin 3 → ℚ) (nodal_coordinates : MatQ) : MatQ :=
  let grad_shapefn := elem.grad_shapefn xi
  if grad_shapefn.rows ≠ nodal_coordinates.rows ∨ 3 ≠ nodal_coordinates.cols then
    MatQ.zeroM 3 3
  else
    grad_shapefn.transposeM.mulM nodal_coordinates

/-- `HexahedronElement::dn_dx` (hexahedron_element.tcc lines 305-320): no
dimension guard; the Jacobian is recomputed inline and the physical-space
gradient is `grad_sf * (jacobian.inverse()).transpose()`. -/
def hex_dn_dx (elem : HexElem) (xi : Fin 3 → ℚ) (nodal_coordinates : MatQ) : MatQ :=
  let grad_sf := elem.grad_shapefn xi
  let jacobian := grad_sf.transposeM.mulM nodal_coordinates
  grad_sf.mulM jacobian.inverse3.transposeM

/-- One 6×3 strain-displacement block of the B-matrix, built from row `i`
of the physical-space gradient matrix exactly as in the source
(hexahedron_element.tcc lines 358-364). -/
def bmatrix_block (g : MatQ) (i : ℕ) : MatQ :=
  ⟨6, 3,
   [[g.entry i 0, 0, 0],
    [0, g.entry i 1, 0],
    [0, 0, g.entry i 2],
    [g.entry i 1, g.entry i 0, 0],
    [0, g.entry i 2, g.entry i 1],
    [g.entry i 2, 0, g.entry i 0]]⟩

/-- `HexahedronElement::bmatrix` (hexahedron_element.tcc lines 323-369):
same guard as `jacobian` but returning the still-empty block list from the
catch block; otherwise one 6×3 block per shape function from
`grad_sf * (jacobian.inverse()).transpose()`. -/
def hex_bmatrix (elem : HexElem) (xi : Fin 3 → ℚ) (nodal_coordinates : MatQ) :
    List MatQ :=
  let grad_sf := elem.grad_shapefn xi
  if grad_sf.rows ≠ nodal_coordinates.rows ∨ 3 ≠ nodal_coordinates.cols then
    []
  else
    let jacobian := grad_sf.transposeM.mulM nodal_coordinates
    let grad_shapefn := grad_sf.mulM jacobian.inverse3.transposeM
    (List.range elem.nfunctions).map (bmatrix_block grad_shapefn)

/-- `HexahedronElement::laplace_matrix` (hexahedron_element.tcc lines
392-431).  The guard `nfunctions() != nodal_coordinates.rows() ||
xi_s.at(0).size() != nodal_coordinates.cols()` throws into a catch block
that only logs - it contains no `return` - so on a dimension mismatch
execution continues into the quadrature loop, whose very first product
`grad_sf.transpose() * nodal_coordinates` (or the assignment of its result
to a fixed 3×3 matrix) violates Eigen's dimension preconditions and has no
defined value: that fall-through is modelled as `none`.  With an empty
`xi_s`, `xi_s.at(0)` throws inside the same try block, the catch logs, and
the loop body never runs, returning the zero matrix.  Only when the guard
passes does the function return the accumulated matrix
`Σ_q grad_shapefn_q * grad_shapefn_q^T` with
`grad_shapefn_q = grad_sf_q * jacobian_q.inverse()`. -/
def hex_laplace_matrix (elem : HexElem) (xi_s : List (Fin 3 → ℚ))
    (nodal_coordinates : MatQ) : Option MatQ :=
  match xi_s with
  | [] => some (MatQ.zeroM elem.nfunctions elem.nfunctions)
  | _ :: _ =>
    if elem.nfunctions ≠ nodal_coordinates.rows ∨ 3 ≠ nodal_coordinates.cols then
      none
    else
      some <| (xi_s.map fun xi =>
          let grad_sf := elem.grad_shapefn xi
          let jacobian := grad_sf.transposeM.mulM nodal_coordinates
          let grad_shapefn := grad_sf.mulM jacobian.inverse3
          grad_shapefn.mulM grad_shapefn.transposeM).foldl
        MatQ.addM (MatQ.zeroM elem.nfunctions elem.nfunctions)

/-- `HexahedronElement::compute_volume` (hexahedron_element.tcc lines
609-648): corner labels `a..h` are rows 7, 6, 2, 3, 4, 5, 1, 0 of the
nodal-coordinate matrix, combined by the signed tetrahedral decomposition
of the source formula. -/
def hex_compute_volume (nodal_coordinates : MatQ) : ℚ :=
  let row : ℕ → ℚ × ℚ × ℚ := fun i =>
    (nodal_coordinates.entry i 0, nodal_coordinates.entry i 1, nodal_coordinates.entry i 2)
  let a := row 7
  let b := row 6
  let c := row 2
  let d := row 3
  let e := row 4
  let f := row 5
  let g := row 1
  let h := row 0
  let sub : ℚ × ℚ × ℚ → ℚ × ℚ × ℚ → ℚ × ℚ × ℚ := fun u v =>
    (u.1 - v.1, u.2.1 - v.2.1, u.2.2 - v.2.2)
  let dot : ℚ × ℚ × ℚ → ℚ × ℚ × ℚ → ℚ := fun u v =>
    u.1 * v.1 + u.2.1 * v.2.1 + u.2.2 * v.2.2
  let cross : ℚ × ℚ × ℚ → ℚ × ℚ × ℚ → ℚ × ℚ × ℚ := fun u v =>
    (u.2.1 * v.2.2 - u.2.2 * v.2.1, u.2.2 * v.1 - u.1 * v.2.2, u.1 * v.2.1 - u.2.1 * v.1)
  let addv : ℚ × ℚ × ℚ → ℚ × ℚ × ℚ → ℚ × ℚ × ℚ := fun u v =>
    (u.1 + v.1, u.2.1 + v.2.1, u.2.2 + v.2.2)
  (1 / 12) * dot (sub a g)
      (addv (addv (cross (sub b d) (sub c a)) (cross (sub e b) (sub f a)))
            (cross (sub d e) (sub h a))) +
  (1 / 12) * dot (sub b g) (addv (cross (sub b d) (sub c a)) (cross (sub c g) (sub c f))) +
  (1 / 12) * dot (sub e g) (addv (cross (sub e b) (sub f a)) (cross (sub f g) (sub h f))) +
  (1 / 12) * dot (sub d g) (addv (cross (sub d e) (sub h a)) (cross (sub h g) (sub h c)))

/-- The unit-cell nodal-coordinate matrix of the 8-node hexahedron as a
`MatQ` (`HexahedronElement<3, 8>::unit_cell_coordinates`). -/
def hex8_unit_cell_matq : MatQ :=
  ⟨8, 3,
   [[-1, -1, -1],
    [ 1, -1, -1],
    [ 1,  1, -1],
    [-1,  1, -1],
    [-1, -1,  1],
    [ 1, -1,  1],
    [ 1,  1,  1],
    [-1,  1,  1]]⟩

/- ================================================================
   Part 4: the B-spline hexahedron element
   (include/elements/3d/hexahedron_bspline_element.tcc)
   ================================================================ -/

/-- `DBL_EPSILON` = 2^-52, the threshold of the source's degenerate-knot
guards `if (den < std::numeric_limits<double>::epsilon()) ...`. -/
def dblEpsilon : ℚ := 1 / 2 ^ 52

/-- The mutable connectivity state of
`mpm::HexahedronBSplineElement<3, Tpolynomial>` installed by
`initialise_bspline_connectivity_properties` (bspline tcc lines 2-16):
node count, nodal coordinates, per-node per-direction type codes and the
uniform grid spacing.  The per-type local knot vectors returned by
`this->knot(node_type)` live in the element's header, which is not part of
the analysed sources, so they are carried as a field. -/
structure HexBSpline where
  nconnectivity : ℕ
  nodal_coordinates : MatQ
  node_type : List (List ℕ)
  spacing_length : ℚ
  knot : ℕ → List ℚ

/-- Knot coordinate `i` of the local knot vector for a node:
`nodal_coord * one + spacing_length_ * knot_vector` evaluated at index `i`
(bspline tcc lines 262-267). -/
def bspline_knot_coord (bs : HexBSpline) (nodal_coord : ℚ) (node_type i : ℕ) : ℚ :=
  nodal_coord + bs.spacing_length * ((bs.knot node_type).getD i 0)

/-- `HexahedronBSplineElement::kernel` (bspline tcc lines 256-292): the Cox-de
Boor recursion on the polynomial order.  At order 0 the basis is the
half-open-interval indicator; at higher order the two convex weights are
zeroed when the corresponding knot span is below `DBL_EPSILON`. -/
def bspline_kernel (bs : HexBSpline) (point_coord nodal_coord : ℚ) (node_type : ℕ) :
    ℕ → ℕ → ℚ
  | 0, index =>
    if bspline_knot_coord bs nodal_coord node_type index ≤ point_coord ∧
       point_coord < bspline_knot_coord bs nodal_coord node_type (index + 1) then 1 else 0
  | poly + 1, index =>
    let kc := bspline_knot_coord bs nodal_coord node_type
    let den_a := kc (index + (poly + 1)) - kc index
    let a := if den_a < dblEpsilon then 0 else (point_coord - kc index) / den_a
    let den_b := kc (index + (poly + 1) + 1) - kc (index + 1)
    let b := if den_b < dblEpsilon then 0 else (kc (index + (poly + 1) + 1) - point_coord) / den_b
    a * bspline_kernel bs point_coord nodal_coord node_type poly index +
      b * bspline_kernel bs point_coord nodal_coord node_type poly (index + 1)

/-- `HexahedronBSplineElement::gradient` (bspline tcc lines 296-323), the
derivative recursion over the same knot structure.  The source subtracts 1
from the unsigned `poly_order`; it is only ever called with a positive
order, so natural subtraction is faithful at every use. -/
def bspline_gradient (bs : HexBSpline) (point_coord nodal_coord : ℚ)
    (node_type poly_order index : ℕ) : ℚ :=
  let kc := bspline_knot_coord bs nodal_coord node_type
  let den_a := kc (index + poly_order) - kc index
  let a := if den_a < dblEpsilon then 0 else (poly_order : ℚ) / den_a
  let den_b := kc (index + poly_order + 1) - kc (index + 1)
  let b := if den_b < dblEpsilon then 0 else (poly_order : ℚ) / den_b
  a * bspline_kernel bs point_coord nodal_coord node_type (poly_order - 1) index -
    b * bspline_kernel bs point_coord nodal_coord node_type (poly_order - 1) (index + 1)

/-- The 8-node shape-function vector as a list (the `Eigen::VectorXd`
returned by `HexahedronElement<3, 8>::shapefn`). -/
def hex8_shapefn_list (xi : Fin 3 → ℚ) : List ℚ :=
  (List.finRange 8).map (hex8_shapefn xi)

/-- One directional basis factor of the B-spline rule: the kernel at the
node's own type code, with the boundary correction of the source's switch -
type 1 adds the kernel at type 5, type 4 adds the kernel at type 6
(bspline tcc lines 49-60). -/
def bspline_dir_factor (bs : HexBSpline) (poly : ℕ) (pcoord_i nodal_i : ℚ)
    (ntype : ℕ) : ℚ :=
  let base := bspline_kernel bs pcoord_i nodal_i ntype poly 0
  match ntype with
  | 1 => base + bspline_kernel bs pcoord_i nodal_i 5 poly 0
  | 4 => base + bspline_kernel bs pcoord_i nodal_i 6 poly 0
  | _ => base

/-- One directional derivative factor: the gradient at the node's own type
code with the symmetric boundary correction (bspline tcc lines 103-114). -/
def bspline_dir_grad_factor (bs : HexBSpline) (poly : ℕ) (pcoord_i nodal_i : ℚ)
    (ntype : ℕ) : ℚ :=
  let base := bspline_gradient bs pcoord_i nodal_i ntype poly 0
  match ntype with
  | 1 => base + bspline_gradient bs pcoord_i nodal_i 5 poly 0
  | 4 => base + bspline_gradient bs pcoord_i nodal_i 6 poly 0
  | _ => base

/-- The real-space point of a local coordinate, interpolated from the first
8 rows of the stored nodal coordinates with the local (trilinear) shape
functions (bspline tcc lines 37-43). -/
def bspline_pcoord (bs : HexBSpline) (xi : Fin 3 → ℚ) (i : Fin 3) : ℚ :=
  ∑ k : Fin 8, hex8_shapefn xi k * bs.nodal_coordinates.entry k i

/-- `HexahedronBSplineElement::shapefn_local` (bspline tcc lines 147-155):
regardless of the polynomial order and the installed connectivity, the
local shape functions are those of the standard 8-node hexahedron. -/
def bspline_shapefn_local (poly : ℕ) (bs : HexBSpline) (xi : Fin 3 → ℚ) : List ℚ :=
  hex8_shapefn_list xi

/-- `HexahedronBSplineElement::shapefn` (bspline tcc lines 20-71): with
exactly the base node count of 8 it falls back to
`HexahedronElement<3, 8>::shapefn`; otherwise each connected node's weight
is the product over the three directions of its directional basis factor at
the real-space point of `xi`.  (`Tpolynomial` is the template parameter
`poly`.) -/
def bspline_shapefn (poly : ℕ) (bs : HexBSpline) (xi : Fin 3 → ℚ) : List ℚ :=
  if bs.nconnectivity = 8 then hex8_shapefn_list xi
  else
    (List.range bs.nconnectivity).map fun n =>
      ∏ i : Fin 3,
        bspline_dir_factor bs poly (bspline_pcoord bs xi i)
          (bs.nodal_coordinates.entry n i) ((bs.node_type.getD n []).getD i 0)

/-- `HexahedronBSplineElement::grad_shapefn` (bspline tcc lines 75-142):
with exactly 8 connected nodes it falls back to
`HexahedronElement<3, 8>::grad_shapefn`; otherwise entry `(n, i)` is the
directional derivative factor in direction `i` times the basis factors of
the other two directions, all evaluated at the real-space point of `xi`. -/
def bspline_grad_shapefn (poly : ℕ) (bs : HexBSpline) (xi : Fin 3 → ℚ) : MatQ :=
  if bs.nconnectivity = 8 then (hex8Elem.grad_shapefn) xi
  else
    MatQ.ofFn bs.nconnectivity 3 fun n i =>
      if h : i < 3 then
        let iF : Fin 3 := ⟨i, h⟩
        (bspline_dir_grad_factor bs poly (bspline_pcoord bs xi iF)
            (bs.nodal_coordinates.entry n i) ((bs.node_type.getD n []).getD i 0)) *
          ∏ j : Fin 3,
            (if j = iF then 1 else
              bspline_dir_factor bs poly (bspline_pcoord bs xi j)
                (bs.nodal_coordinates.entry n j) ((bs.node_type.getD n []).getD j 0))
      else 0

/-- `HexahedronBSplineElement::jacobian` (bspline tcc lines 158-182): the
same dimension guard and formula as the standard element's `jacobian`, with
the B-spline gradient matrix. -/
def bspline_jacobian (poly : ℕ) (bs : HexBSpline) (xi : Fin 3 → ℚ)
    (nodal_coordinates : MatQ) : MatQ :=
  let grad_shapefn := bspline_grad_shapefn poly bs xi
  if grad_shapefn.rows ≠ nodal_coordinates.rows ∨ 3 ≠ nodal_coordinates.cols then
    MatQ.zeroM 3 3
  else
    grad_shapefn.transposeM.mulM nodal_coordinates

/-- `HexahedronBSplineElement::dn_dx` (bspline tcc lines 185-191): the
function body is a single statement returning
`this->grad_shapefn(xi, particle_size, deformation_gradient)` - the nodal
coordinates are ignored and no Jacobian factor is applied. -/
def bspline_dn_dx (poly : ℕ) (bs : HexBSpline) (xi : Fin 3 → ℚ)
    (nodal_coordinates : MatQ) : MatQ :=
  bspline_grad_shapefn poly bs xi

/- ================================================================
   Part 5: cell point location (include/cells/cell.h declares
   `is_point_in_cell`; the implementation lives in cell.tcc, which is not
   among the analysed sources, so it is modelled from the specification)
   ================================================================ -/

/-- Modelled from the spec: the isoparametric geometry map `X(xi)` of an
8-node cell - the cell.tcc body behind `Cell::is_point_in_cell` is not in
the analysed sources.  Spec section 4.2: the residual is
`F(xi) = X(xi) - point` where `X` interpolates the nodal coordinates with
the element's shape functions (spec glossary: isoparametric). -/
def cellX (coords : Fin 8 → Fin 3 → ℚ) (xi : Fin 3 → ℚ) (d : Fin 3) : ℚ :=
  ∑ k : Fin 8, hex8_shapefn xi k * coords k d

/-- Modelled from the spec: the element Jacobian `dX_d/dxi_e` used for the
Newton system `J · Δxi = -F` (spec section 4.2). -/
def cellJ (coords : Fin 8 → Fin 3 → ℚ) (xi : Fin 3 → ℚ) (d e : Fin 3) : ℚ :=
  ∑ k : Fin 8, hex8_grad_shapefn xi k e * coords k d

/-- Determinant of a 3×3 matrix given as a function, by cofactor expansion. -/
def det3f (A : Fin 3 → Fin 3 → ℚ) : ℚ :=
  A 0 0 * (A 1 1 * A 2 2 - A 1 2 * A 2 1) -
  A 0 1 * (A 1 0 * A 2 2 - A 1 2 * A 2 0) +
  A 0 2 * (A 1 0 * A 2 1 - A 1 1 * A 2 0)

/-- Inverse of a 3×3 matrix given as a function, by the adjugate formula. -/
def inv3f (A : Fin 3 → Fin 3 → ℚ) : Fin 3 → Fin 3 → ℚ :=
  fun i j =>
    (![![A 1 1 * A 2 2 - A 1 2 * A 2 1,
        -(A 0 1 * A 2 2 - A 0 2 * A 2 1),
        A 0 1 * A 1 2 - A 0 2 * A 1 1],
      ![-(A 1 0 * A 2 2 - A 1 2 * A 2 0),
        A 0 0 * A 2 2 - A 0 2 * A 2 0,
        -(A 0 0 * A 1 2 - A 0 2 * A 1 0)],
      ![A 1 0 * A 2 1 - A 1 1 * A 2 0,
        -(A 0 0 * A 2 1 - A 0 1 * A 2 0),
        A 0 0 * A 1 1 - A 0 1 * A 1 0]] : Fin 3 → Fin 3 → ℚ) i j / det3f A

/-- Matrix-vector product for 3×3 function matrices. -/
def mulVec3 (A : Fin 3 → Fin 3 → ℚ) (v : Fin 3 → ℚ) (i : Fin 3) : ℚ :=
  ∑ e : Fin 3, A i e * v e

/-- Modelled from the spec: the Newton residual `F(xi) = X(xi) - point`. -/
def cellResidual (coords : Fin 8 → Fin 3 → ℚ) (point : Fin 3 → ℚ)
    (xi : Fin 3 → ℚ) (d : Fin 3) : ℚ :=
  cellX coords xi d - point d

/-- Squared Euclidean norm of the residual (the convergence test compares
the residual norm with a fixed tolerance; squares avoid square roots). -/
def cellResidualNorm2 (coords : Fin 8 → Fin 3 → ℚ) (point : Fin 3 → ℚ)
    (xi : Fin 3 → ℚ) : ℚ :=
  ∑ d : Fin 3, cellResidual coords point xi d ^ 2

/-- Modelled from the spec: one Newton-Raphson update
`xi - J(xi)^{-1} F(xi)` (spec section 4.2). -/
def cellNewtonStep (coords : Fin 8 → Fin 3 → ℚ) (point : Fin 3 → ℚ)
    (xi : Fin 3 → ℚ) (e : Fin 3) : ℚ :=
  xi e - mulVec3 (inv3f (cellJ coords xi)) (cellResidual coords point xi) e

/-- Modelled from the spec: the affine initial guess - the first-order
expansion of the geometry map about the cell centre,
`xi_0 = J(0)^{-1} (point - X(0))` (spec section 4.2: "an affine
approximation provides an initial guess for local coordinates"). -/
def cellAffineGuess (coords : Fin 8 → Fin 3 → ℚ) (point : Fin 3 → ℚ) : Fin 3 → ℚ :=
  mulVec3 (inv3f (cellJ coords fun _ => 0))
    (fun d => point d - cellX coords (fun _ => 0) d)

/-- Modelled from the spec: the Newton iteration with an iteration cap -
it stops as soon as the residual norm is within tolerance (`tol2` is the
squared tolerance) or the cap is exhausted (spec section 4.2). -/
def cellNewtonIterate (coords : Fin 8 → Fin 3 → ℚ) (point : Fin 3 → ℚ)
    (tol2 : ℚ) : ℕ → (Fin 3 → ℚ) → (Fin 3 → ℚ)
  | 0, xi => xi
  | fuel + 1, xi =>
    if cellResidualNorm2 coords point xi ≤ tol2 then xi
    else cellNewtonIterate coords point tol2 fuel (cellNewtonStep coords point xi)

/-- Modelled from the spec: `Cell::transform_real_to_unit_cell` - the local
coordinate the point-location solver computes for a real-space point. -/
def transform_real_to_unit_cell (coords : Fin 8 → Fin 3 → ℚ) (point : Fin 3 → ℚ)
    (tol2 : ℚ) (maxit : ℕ) : Fin 3 → ℚ :=
  cellNewtonIterate coords point tol2 maxit (cellAffineGuess coords point)

/-- Modelled from the spec: `Cell::is_point_in_cell` (declared at cell.h
lines 177-186) - the computed local coordinate is accepted when the
iteration converged (non-convergence is treated as "outside" for
isoparametric cells) and the coordinate lies in `[-1, 1]` on every axis up
to the numerical slack (spec section 4.2). -/
def is_point_in_cell (coords : Fin 8 → Fin 3 → ℚ) (point : Fin 3 → ℚ)
    (tol2 : ℚ) (maxit : ℕ) (slack : ℚ) : Bool :=
  let xi := transform_real_to_unit_cell coords point tol2 maxit
  decide (cellResidualNorm2 coords point xi ≤ tol2) &&
    decide (∀ d : Fin 3, |xi d| ≤ 1 + slack)

/-- A cell whose geometry map is affine: each node `k` sits at
`c + H · (unit-cell corner k)`.  Axis-aligned boxes are the special case
of diagonal `H`. -/
def affineCell (c : Fin 3 → ℚ) (H : Fin 3 → Fin 3 → ℚ) (k : Fin 8) (d : Fin 3) : ℚ :=
  c d + ∑ e : Fin 3, H d e * hex8_unit_cell k e

/- ================================================================
   Part 6: concrete instances used to instantiate the theorems
   ================================================================ -/

/-- A B-spline hexahedron state holding exactly the base node count of 8
(the fallback case of `shapefn`/`grad_shapefn`). -/
def bs8 : HexBSpline := ⟨8, hex8_unit_cell_matq, [], 1, fun _ => []⟩

/-- The unit cube scaled by 2: node `k` at `2 · (unit-cell corner k)`. -/
def coords2x : MatQ :=
  ⟨8, 3,
   [[-2, -2, -2],
    [ 2, -2, -2],
    [ 2,  2, -2],
    [-2,  2, -2],
    [-2, -2,  2],
    [ 2, -2,  2],
    [ 2,  2,  2],
    [-2,  2,  2]]⟩

/-- A 4×3 nodal-coordinate matrix: the wrong row count for any hexahedron
element, tripping every dimension guard. -/
def coords4x3 : MatQ := ⟨4, 3, [[0, 0, 0], [0, 0, 0], [0, 0, 0], [0, 0, 0]]⟩

/-- The identity as a 3×3 function matrix. -/
def idH : Fin 3 → Fin 3 → ℚ := fun i j => if i = j then 1 else 0

/-- A non-affine (genuinely trilinear) cell: the unit cube with node 6
pulled out from `(1, 1, 1)` to `(2, 1, 2)`.  Its geometry map is
`X(xi) = xi + N_6(xi) · (1, 0, 1)`, quadratic in the moving coordinates, so
the Newton point-location solve is not exact in finitely many steps. -/
def distortedCell : Fin 8 → Fin 3 → ℚ :=
  ![![-1, -1, -1],
    ![ 1, -1, -1],
    ![ 1,  1, -1],
    ![-1,  1, -1],
    ![-1, -1,  1],
    ![ 1, -1,  1],
    ![ 2,  1,  2],
    ![-1,  1,  1]]

/- ================================================================
   Part 7: the claims
   ================================================================ -/

/-- Claim C1 (refuted - the code is off by three entries): the serialization
tables do declare one name per field in the claimed order (56 names, with
`gamma_yz` at index 29 and `status` at index 32), but the `field_type`
array supplies only 53 initialisers, so `H5T_NATIVE_HBOOL` lands at index
29 (the strain component `gamma_yz`, which the claim types as a double)
instead of at index 32 (`status`), the `LLONG`/`UINT` entries are shifted
three places likewise, and the last three state-variable slots get
zero-initialised type ids instead of `H5T_NATIVE_DOUBLE`. -/
theorem C1_field_type_misaligned :
    field_names.length = 56 ∧ field_type.length = 56 ∧
    field_names.getD 29 "" = "gamma_yz" ∧ field_names.getD 32 "" = "status" ∧
    field_type.getD 29 .zeroInit = .nativeHBool ∧
    spec_field_type.getD 29 .zeroInit = .nativeDouble ∧
    field_type.getD 32 .zeroInit = .nativeUInt ∧
    spec_field_type.getD 32 .zeroInit = .nativeHBool ∧
    field_type.getD 55 .nativeDouble = .zeroInit ∧
    field_type ≠ spec_field_type := by
  decide

/-- Claim C2 (refuting instance): entry `(3, 1)` of the 20-node element's
`grad_shapefn` is not the partial derivative of shape function 3 with
respect to `xi(1)`: at `xi = (1, 0, 0)` the map `t ↦ shapefn(1, t, 0)(3)`
is constantly 0 (its leading factor `1 - xi(0)` vanishes), so the partial
derivative is 0, yet the code's entry - whose trailing factor is
`(1 - xi(1))` where the derivative has `(1 - xi(0))` - evaluates to
`-1/4`. -/
theorem C2_hex20_grad_entry_3_1_wrong :
    HasDerivAt (fun t : ℝ => hex20_shapefn ![1, t, 0] 3) 0 0 ∧
    hex20_grad_shapefn (![1, 0, 0] : Fin 3 → ℝ) 3 1 = -(1/4) ∧
    ((-(1/4) : ℝ) ≠ 0) := by
  refine ⟨?_, ?_, by norm_num⟩
  · have h : (fun t : ℝ => hex20_shapefn ![1, t, 0] 3) = fun _ => 0 := by
      funext t
      rw [show hex20_shapefn ![1, t, 0] 3 =
        -(1/8) * (1 - (1 : ℝ)) * (1 + t) * (1 - 0) * (2 + 1 - t + 0) from rfl]
      ring
    rw [h]
    exact hasDerivAt_const _ _
  · rw [show hex20_grad_shapefn (![1, 0, 0] : Fin 3 → ℝ) 3 1 =
      -(1/8) * ((1 : ℝ) - 2 * 0 + 0 + 1) * (1 - 0) * (1 - 0) from rfl]
    norm_num

/-- Claim C5: the 8-node and the 20-node hexahedron shape functions sum to
1 at every local coordinate in `[-1, 1]^3` (the identity is in fact an
exact polynomial identity, so the interval hypothesis is not even
needed). -/
theorem C5_partition_of_unity (xi : Fin 3 → ℝ)
    (hxi : ∀ d : Fin 3, xi d ∈ Set.Icc (-1 : ℝ) 1) :
    ∑ k : Fin 8, hex8_shapefn xi k = 1 ∧ ∑ k : Fin 20, hex20_shapefn xi k = 1 := by
  constructor
  · simp [hex8_shapefn, Fin.sum_univ_succ]
    ring
  · simp [hex20_shapefn, Fin.sum_univ_succ]
    ring

/-- Witness for C5 at the cell centre `xi = 0`. -/
theorem C5_partition_of_unity_witness :
    (∀ d : Fin 3, (fun _ : Fin 3 => (0 : ℝ)) d ∈ Set.Icc (-1 : ℝ) 1) ∧
    (∑ k : Fin 8, hex8_shapefn (fun _ : Fin 3 => (0 : ℝ)) k = 1 ∧
      ∑ k : Fin 20, hex20_shapefn (fun _ : Fin 3 => (0 : ℝ)) k = 1) :=
  ⟨fun _ => by norm_num,
   C5_partition_of_unity (fun _ => 0) (fun _ => by norm_num)⟩

/-- Claim C6: `compute_volume` applied to the unit-cell corner coordinates
`(±1, ±1, ±1)` in the element's node ordering returns exactly 8. -/
theorem C6_compute_volume_unit_cell : hex_compute_volume hex8_unit_cell_matq = 8 := by
  norm_num [hex_compute_volume, hex8_unit_cell_matq, MatQ.entry]

/-- Claim C9: `shapefn_local` of the B-spline hexahedron element returns
the standard 8-node trilinear shape functions for every polynomial order,
connectivity state and local coordinate - the function body ignores all of
the element's nonlocal state (it is a single call to
`HexahedronElement<3, 8>::shapefn`, which this equation is by
definition). -/
theorem C9_bspline_shapefn_local_is_trilinear (poly : ℕ) (bs : HexBSpline)
    (xi : Fin 3 → ℚ) :
    bspline_shapefn_local poly bs xi = hex8_shapefn_list xi := rfl

/-- The 8-node gradient matrix written out: each entry of `hex8_grad_matq`
reduces definitionally to the corresponding source formula. -/
theorem hex8_grad_matq_expand (xi : Fin 3 → ℚ) :
    hex8_grad_matq xi =
      ⟨8, 3,
       [[-(1/8) * (1 - xi 1) * (1 - xi 2),
         -(1/8) * (1 - xi 0) * (1 - xi 2),
         -(1/8) * (1 - xi 0) * (1 - xi 1)],
        [ (1/8) * (1 - xi 1) * (1 - xi 2),
         -(1/8) * (1 + xi 0) * (1 - xi 2),
         -(1/8) * (1 + xi 0) * (1 - xi 1)],
        [ (1/8) * (1 + xi 1) * (1 - xi 2),
          (1/8) * (1 + xi 0) * (1 - xi 2),
         -(1/8) * (1 + xi 0) * (1 + xi 1)],
        [-(1/8) * (1 + xi 1) * (1 - xi 2),
          (1/8) * (1 - xi 0) * (1 - xi 2),
         -(1/8) * (1 - xi 0) * (1 + xi 1)],
        [-(1/8) * (1 - xi 1) * (1 + xi 2),
         -(1/8) * (1 - xi 0) * (1 + xi 2),
          (1/8) * (1 - xi 0) * (1 - xi 1)],
        [ (1/8) * (1 - xi 1) * (1 + xi 2),
         -(1/8) * (1 + xi 0) * (1 + xi 2),
          (1/8) * (1 + xi 0) * (1 - xi 1)],
        [ (1/8) * (1 + xi 1) * (1 + xi 2),
          (1/8) * (1 + xi 0) * (1 + xi 2),
          (1/8) * (1 + xi 0) * (1 + xi 1)],
        [-(1/8) * (1 + xi 1) * (1 + xi 2),
          (1/8) * (1 - xi 0) * (1 + xi 2),
          (1/8) * (1 - xi 0) * (1 + xi 1)]]⟩ := rfl

/-- Claim C7: a B-spline hexahedron element whose connectivity holds exactly
the base node count of 8 falls back, for `shapefn` and `grad_shapefn` alike
and at every local coordinate, to the standard 8-node linear hexahedron
element's values. -/
theorem C7_bspline_base_count_fallback (poly : ℕ) (bs : HexBSpline)
    (xi : Fin 3 → ℚ) (h : bs.nconnectivity = 8) :
    bspline_shapefn poly bs xi = hex8_shapefn_list xi ∧
    bspline_grad_shapefn poly bs xi = hex8_grad_matq xi := by
  unfold bspline_shapefn bspline_grad_shapefn
  rw [if_pos h, if_pos h]
  exact ⟨rfl, rfl⟩

/-- Witness for C7: the concrete 8-node B-spline state `bs8`. -/
theorem C7_bspline_base_count_fallback_witness :
    bs8.nconnectivity = 8 ∧
    (bspline_shapefn 2 bs8 (fun _ => 0) = hex8_shapefn_list (fun _ => 0) ∧
      bspline_grad_shapefn 2 bs8 (fun _ => 0) = hex8_grad_matq (fun _ => 0)) :=
  ⟨rfl, C7_bspline_base_count_fallback 2 bs8 (fun _ => 0) rfl⟩

/-- Claim C10: every 8-node shape function lies in `[0, 1]` whenever every
component of the local coordinate lies in `[-1, 1]`, so interpolants are
convex combinations of nodal values. -/
theorem C10_hex8_shapefn_unit_interval (xi : Fin 3 → ℝ)
    (hxi : ∀ d : Fin 3, -1 ≤ xi d ∧ xi d ≤ 1) (k : Fin 8) :
    0 ≤ hex8_shapefn xi k ∧ hex8_shapefn xi k ≤ 1 := by
  obtain ⟨h0l, h0u⟩ := hxi 0
  obtain ⟨h1l, h1u⟩ := hxi 1
  obtain ⟨h2l, h2u⟩ := hxi 2
  have key : ∀ a b c : ℝ, 0 ≤ a → a ≤ 2 → 0 ≤ b → b ≤ 2 → 0 ≤ c → c ≤ 2 →
      0 ≤ (1/8 : ℝ) * a * b * c ∧ (1/8 : ℝ) * a * b * c ≤ 1 := by
    intro a b c ha ha2 hb hb2 hc hc2
    constructor
    · have h1 : 0 ≤ (1/8 : ℝ) * a := by linarith
      have h2 : 0 ≤ (1/8 : ℝ) * a * b := mul_nonneg h1 hb
      exact mul_nonneg h2 hc
    · nlinarith [mul_nonneg hb hc, mul_nonneg ha hb, mul_nonneg ha hc,
        mul_nonneg (mul_nonneg ha hb) hc]
  fin_cases k
  · exact key _ _ _ (by linarith) (by linarith) (by linarith) (by linarith)
      (by linarith) (by linarith)
  · exact key _ _ _ (by linarith) (by linarith) (by linarith) (by linarith)
      (by linarith) (by linarith)
  · exact key _ _ _ (by linarith) (by linarith) (by linarith) (by linarith)
      (by linarith) (by linarith)
  · exact key _ _ _ (by linarith) (by linarith) (by linarith) (by linarith)
      (by linarith) (by linarith)
  · exact key _ _ _ (by linarith) (by linarith) (by linarith) (by linarith)
      (by linarith) (by linarith)
  · exact key _ _ _ (by linarith) (by linarith) (by linarith) (by linarith)
      (by linarith) (by linarith)
  · exact key _ _ _ (by linarith) (by linarith) (by linarith) (by linarith)
      (by linarith) (by linarith)
  · exact key _ _ _ (by linarith) (by linarith) (by linarith) (by linarith)
      (by linarith) (by linarith)

/-- Witness for C10 at the cell centre and node 0. -/
theorem C10_hex8_shapefn_unit_interval_witness :
    (∀ d : Fin 3, -1 ≤ (fun _ : Fin 3 => (0 : ℝ)) d ∧ (fun _ : Fin 3 => (0 : ℝ)) d ≤ 1) ∧
    (0 ≤ hex8_shapefn (fun _ : Fin 3 => (0 : ℝ)) 0 ∧
      hex8_shapefn (fun _ : Fin 3 => (0 : ℝ)) 0 ≤ 1) :=
  ⟨fun _ => by norm_num,
   C10_hex8_shapefn_unit_interval (fun _ => 0) (fun _ => by norm_num) 0⟩

/-- Claim C3 (counterexample): for a B-spline hexahedron element holding the
base node count, at `xi = 0` on the unit cube scaled by 2 (matching
dimensions, Jacobian `2·I`, determinant 8), `dn_dx` does not equal
`grad_shapefn` times the transpose of the inverse of `jacobian`: `dn_dx`
returns the gradient matrix unchanged while the claimed product halves
every entry. -/
theorem C3_bspline_dn_dx_counterexample :
    (bspline_grad_shapefn 2 bs8 (fun _ => 0)).rows = coords2x.rows ∧
    coords2x.cols = 3 ∧
    (bspline_jacobian 2 bs8 (fun _ => 0) coords2x).det3 = 8 ∧
    bspline_dn_dx 2 bs8 (fun _ => 0) coords2x ≠
      (bspline_grad_shapefn 2 bs8 (fun _ => 0)).mulM
        (bspline_jacobian 2 bs8 (fun _ => 0) coords2x).inverse3.transposeM := by
  have h8 : bs8.nconnectivity = 8 := rfl
  have hgrad : bspline_grad_shapefn 2 bs8 (fun _ => 0) = hex8_grad_matq (fun _ => 0) := by
    unfold bspline_grad_shapefn
    rw [if_pos h8]
    rfl
  refine ⟨by rw [hgrad]; rfl, rfl, ?_, ?_⟩
  · unfold bspline_jacobian
    rw [hgrad, hex8_grad_matq_expand]
    norm_num [MatQ.transposeM, MatQ.mulM, MatQ.ofFn, MatQ.entry, MatQ.det3, coords2x,
      List.range_succ]
  · unfold bspline_dn_dx bspline_jacobian
    rw [hgrad, hex8_grad_matq_expand]
    norm_num [MatQ.transposeM, MatQ.mulM, MatQ.ofFn, MatQ.entry, MatQ.det3,
      MatQ.inverse3, coords2x, List.range_succ]

/-- Claim C3 (amended): for the standard Lagrange hexahedron, with matching
dimensions and a non-singular Jacobian, `dn_dx` equals `grad_shapefn`
multiplied by the transpose of the inverse of `jacobian`; the B-spline
hexahedron's `dn_dx`, by contrast, returns `grad_shapefn` unchanged (its
gradients are already physical-space). -/
theorem C3_dn_dx_amended :
    (∀ (elem : HexElem) (xi : Fin 3 → ℚ) (coords : MatQ),
      (elem.grad_shapefn xi).rows = coords.rows → coords.cols = 3 →
      ((elem.grad_shapefn xi).transposeM.mulM coords).det3 ≠ 0 →
      hex_dn_dx elem xi coords =
        (elem.grad_shapefn xi).mulM (hex_jacobian elem xi coords).inverse3.transposeM) ∧
    (∀ (poly : ℕ) (bs : HexBSpline) (xi : Fin 3 → ℚ) (coords : MatQ),
      bspline_dn_dx poly bs xi coords = bspline_grad_shapefn poly bs xi) := by
  constructor
  · intro elem xi coords h1 h2 _
    simp only [hex_dn_dx, hex_jacobian]
    rw [if_neg (by simp [h1, h2])]
  · intro _ _ _ _
    rfl

/-- Witness for C3 at the 8-node element, `xi = 0` and the unit cube scaled
by 2 (Jacobian `2·I`). -/
theorem C3_dn_dx_amended_witness :
    ((hex8Elem.grad_shapefn (fun _ => 0)).rows = coords2x.rows ∧ coords2x.cols = 3 ∧
      ((hex8Elem.grad_shapefn (fun _ => 0)).transposeM.mulM coords2x).det3 ≠ 0) ∧
    hex_dn_dx hex8Elem (fun _ => 0) coords2x =
      (hex8Elem.grad_shapefn (fun _ => 0)).mulM
        (hex_jacobian hex8Elem (fun _ => 0) coords2x).inverse3.transposeM := by
  have hdet : ((hex8Elem.grad_shapefn (fun _ => 0)).transposeM.mulM coords2x).det3 ≠ 0 := by
    rw [show hex8Elem.grad_shapefn (fun _ => 0) = hex8_grad_matq (fun _ => 0) from rfl,
      hex8_grad_matq_expand]
    norm_num [MatQ.transposeM, MatQ.mulM, MatQ.ofFn, MatQ.entry, MatQ.det3, coords2x,
      List.range_succ]
  exact ⟨⟨rfl, rfl, hdet⟩,
    C3_dn_dx_amended.1 hex8Elem (fun _ => 0) coords2x rfl rfl hdet⟩

/-- Claim C4 (counterexample): with the 8-node element and a 4-row
nodal-coordinate matrix the `laplace_matrix` dimension guard trips, yet the
function does not return the zero matrix: its catch block has no `return`,
so execution continues into the computation with the mismatched operands. -/
theorem C4_laplace_matrix_counterexample :
    (hex8Elem.nfunctions ≠ coords4x3.rows ∨ 3 ≠ coords4x3.cols) ∧
    hex_laplace_matrix hex8Elem [fun _ => 0] coords4x3 ≠
      some (MatQ.zeroM hex8Elem.nfunctions hex8Elem.nfunctions) := by
  constructor
  · exact Or.inl (by decide)
  · simp only [hex_laplace_matrix]
    rw [if_pos (Or.inl (by decide))]
    simp

/-- Claim C4 (amended): on a dimension mismatch, `jacobian` returns the
3×3 zero matrix and `bmatrix` the empty block list without computing with
the mismatched operands; `laplace_matrix` only logs the mismatch - its
catch block does not return - and proceeds into the computation with the
mismatched operands (modelled as `none`). -/
theorem C4_dimension_mismatch_amended (elem : HexElem) (xi x : Fin 3 → ℚ)
    (xs : List (Fin 3 → ℚ)) (coords : MatQ)
    (hg : (elem.grad_shapefn xi).rows ≠ coords.rows ∨ 3 ≠ coords.cols)
    (hn : elem.nfunctions ≠ coords.rows ∨ 3 ≠ coords.cols) :
    hex_jacobian elem xi coords = MatQ.zeroM 3 3 ∧
    hex_bmatrix elem xi coords = [] ∧
    hex_laplace_matrix elem (x :: xs) coords = none := by
  refine ⟨?_, ?_, ?_⟩
  · simp only [hex_jacobian]
    rw [if_pos hg]
  · simp only [hex_bmatrix]
    rw [if_pos hg]
  · simp only [hex_laplace_matrix]
    rw [if_pos hn]

/-- Witness for C4: the 8-node element against a 4×3 nodal matrix. -/
theorem C4_dimension_mismatch_amended_witness :
    ((hex8Elem.grad_shapefn (fun _ => 0)).rows ≠ coords4x3.rows ∨ 3 ≠ coords4x3.cols) ∧
    (hex8Elem.nfunctions ≠ coords4x3.rows ∨ 3 ≠ coords4x3.cols) ∧
    (hex_jacobian hex8Elem (fun _ => 0) coords4x3 = MatQ.zeroM 3 3 ∧
      hex_bmatrix hex8Elem (fun _ => 0) coords4x3 = [] ∧
      hex_laplace_matrix hex8Elem [fun _ => 0] coords4x3 = none) :=
  ⟨Or.inl (by decide), Or.inl (by decide),
   C4_dimension_mismatch_amended hex8Elem (fun _ => 0) (fun _ => 0) [] coords4x3
     (Or.inl (by decide)) (Or.inl (by decide))⟩

/-- For an affine-geometry cell the isoparametric map is exactly the affine
map: `X(xi) = c + H·xi` (partition of unity plus linear completeness of the
trilinear shape functions). -/
theorem affine_cellX_eq (c : Fin 3 → ℚ) (H : Fin 3 → Fin 3 → ℚ) (xi : Fin 3 → ℚ)
    (d : Fin 3) :
    cellX (affineCell c H) xi d = c d + ∑ e : Fin 3, H d e * xi e := by
  simp [cellX, affineCell, hex8_shapefn, hex8_unit_cell, Fin.sum_univ_succ]
  ring

/-- For an affine-geometry cell the element Jacobian is constantly `H`. -/
theorem affine_cellJ_eq (c : Fin 3 → ℚ) (H : Fin 3 → Fin 3 → ℚ) (xi : Fin 3 → ℚ) :
    cellJ (affineCell c H) xi = H := by
  funext d e
  fin_cases e <;>
    · simp [cellJ, affineCell, hex8_grad_shapefn, hex8_unit_cell, Fin.sum_univ_succ]
      ring

/-- The adjugate inverse is a left inverse on vectors when the determinant
is non-zero. -/
theorem inv3f_cancel_left (H : Fin 3 → Fin 3 → ℚ) (hdet : det3f H ≠ 0)
    (v : Fin 3 → ℚ) (i : Fin 3) :
    mulVec3 H (mulVec3 (inv3f H) v) i = v i := by
  simp only [det3f] at hdet
  fin_cases i <;>
    · simp [mulVec3, inv3f, det3f, Fin.sum_univ_succ]
      field_simp
      ring

/-- The adjugate inverse is a right inverse on vectors when the determinant
is non-zero. -/
theorem inv3f_cancel_right (H : Fin 3 → Fin 3 → ℚ) (hdet : det3f H ≠ 0)
    (v : Fin 3 → ℚ) (i : Fin 3) :
    mulVec3 (inv3f H) (mulVec3 H v) i = v i := by
  simp only [det3f] at hdet
  fin_cases i <;>
    · simp [mulVec3, inv3f, det3f, Fin.sum_univ_succ]
      field_simp
      ring

/-- On an affine-geometry cell with invertible `H` the affine initial guess
already has residual zero at every target point. -/
theorem affine_guess_exact (c : Fin 3 → ℚ) (H : Fin 3 → Fin 3 → ℚ)
    (hdet : det3f H ≠ 0) (p : Fin 3 → ℚ) (d : Fin 3) :
    cellResidual (affineCell c H) p (cellAffineGuess (affineCell c H) p) d = 0 := by
  have hX0 : (fun d => p d - cellX (affineCell c H) (fun _ => 0) d) =
      fun e => p e - c e := by
    funext e
    rw [affine_cellX_eq]
    simp
  have hguess : cellAffineGuess (affineCell c H) p =
      mulVec3 (inv3f H) (fun e => p e - c e) := by
    unfold cellAffineGuess
    rw [affine_cellJ_eq, hX0]
  rw [cellResidual, affine_cellX_eq, hguess]
  have hmv : ∑ e : Fin 3, H d e * mulVec3 (inv3f H) (fun e => p e - c e) e =
      mulVec3 H (mulVec3 (inv3f H) (fun e => p e - c e)) d := rfl
  rw [hmv, inv3f_cancel_left H hdet]
  ring

/-- A point whose residual already vanishes is a fixed point of the
capped Newton iteration for any non-negative squared tolerance. -/
theorem newton_fixed (coords : Fin 8 → Fin 3 → ℚ) (p : Fin 3 → ℚ) (tol2 : ℚ)
    (htol : 0 ≤ tol2) (xi : Fin 3 → ℚ)
    (hres : ∀ d : Fin 3, cellResidual coords p xi d = 0) (fuel : ℕ) :
    cellNewtonIterate coords p tol2 fuel xi = xi := by
  have hnorm : cellResidualNorm2 coords p xi = 0 := by
    simp [cellResidualNorm2, hres]
  cases fuel with
  | zero => rfl
  | succ n =>
    simp only [cellNewtonIterate]
    rw [if_pos (by rw [hnorm]; exact htol)]

/-- On an affine-geometry cell the point-location solver returns the affine
guess itself: the Newton loop accepts it immediately. -/
theorem affine_transform_eq (c : Fin 3 → ℚ) (H : Fin 3 → Fin 3 → ℚ)
    (hdet : det3f H ≠ 0) (p : Fin 3 → ℚ) (tol2 : ℚ) (htol : 0 ≤ tol2) (maxit : ℕ) :
    transform_real_to_unit_cell (affineCell c H) p tol2 maxit =
      cellAffineGuess (affineCell c H) p := by
  unfold transform_real_to_unit_cell
  exact newton_fixed _ _ _ htol _ (affine_guess_exact c H hdet p) maxit

/-- Feeding a node's own real coordinate to the affine guess recovers
exactly that node's unit-cell corner. -/
theorem affine_node_guess (c : Fin 3 → ℚ) (H : Fin 3 → Fin 3 → ℚ)
    (hdet : det3f H ≠ 0) (k : Fin 8) :
    cellAffineGuess (affineCell c H) (affineCell c H k) = hex8_unit_cell k := by
  unfold cellAffineGuess
  rw [affine_cellJ_eq]
  have harg : (fun d => affineCell c H k d - cellX (affineCell c H) (fun _ => 0) d) =
      mulVec3 H (hex8_unit_cell k) := by
    funext d
    rw [affine_cellX_eq]
    simp [affineCell, mulVec3]
  rw [harg]
  funext i
  exact inv3f_cancel_right H hdet _ i

/-- The capped Newton iteration with one unit of fuel: test the starting
residual and take at most one step. -/
theorem cellNewtonIterate_one (coords : Fin 8 → Fin 3 → ℚ) (p : Fin 3 → ℚ)
    (tol2 : ℚ) (xi : Fin 3 → ℚ) :
    cellNewtonIterate coords p tol2 1 xi =
      if cellResidualNorm2 coords p xi ≤ tol2 then xi
      else cellNewtonStep coords p xi := rfl

/-- The distorted cell's element Jacobian at the cell centre. -/
theorem distorted_J0 : cellJ distortedCell (fun _ => 0) =
    ![![9/8, 1/8, 1/8], ![0, 1, 0], ![1/8, 1/8, 9/8]] := by
  funext d e
  fin_cases d <;> fin_cases e <;>
    norm_num [cellJ, hex8_grad_shapefn, distortedCell, Fin.sum_univ_succ]

/-- The distorted cell's geometry map at the cell centre. -/
theorem distorted_X0 : cellX distortedCell (fun _ => 0) = ![1/8, 0, 1/8] := by
  funext d
  fin_cases d <;>
    norm_num [cellX, hex8_shapefn, distortedCell, Fin.sum_univ_succ]

/-- The affine initial guess on the distorted cell for the interior point
`(1/2, 1/2, 1/2)`. -/
theorem distorted_guessA :
    cellAffineGuess distortedCell (fun _ => 1/2) = ![1/4, 1/2, 1/4] := by
  unfold cellAffineGuess
  rw [distorted_J0]
  simp only [distorted_X0]
  funext i
  fin_cases i <;> norm_num [mulVec3, inv3f, det3f, Fin.sum_univ_succ]

/-- The distorted cell's Jacobian at that guess. -/
theorem distorted_JA : cellJ distortedCell ![1/4, 1/2, 1/4] =
    ![![79/64, 25/128, 15/64], ![0, 1, 0], ![15/64, 25/128, 79/64]] := by
  funext d e
  fin_cases d <;> fin_cases e <;>
    norm_num [cellJ, hex8_grad_shapefn, distortedCell, Fin.sum_univ_succ]

/-- The Newton residual at that guess: non-zero. -/
theorem distorted_residA :
    cellResidual distortedCell (fun _ => 1/2) ![1/4, 1/2, 1/4] =
      ![11/256, 0, 11/256] := by
  funext d
  fin_cases d <;>
    norm_num [cellResidual, cellX, hex8_shapefn, distortedCell, Fin.sum_univ_succ]

/-- One Newton step from that guess. -/
theorem distorted_stepA :
    cellNewtonStep distortedCell (fun _ => 1/2) ![1/4, 1/2, 1/4] =
      ![83/376, 1/2, 83/376] := by
  funext i
  simp only [cellNewtonStep]
  rw [distorted_JA, distorted_residA]
  fin_cases i <;> norm_num [mulVec3, inv3f, det3f, Fin.sum_univ_succ]

/-- The residual after that step: still non-zero - the quadratic terms of
the trilinear map keep the exact solve out of reach of one iteration. -/
theorem distorted_residA1 :
    cellResidual distortedCell (fun _ => 1/2) ![83/376, 1/2, 83/376] =
      ![363/2262016, 0, 363/2262016] := by
  funext d
  fin_cases d <;>
    norm_num [cellResidual, cellX, hex8_shapefn, distortedCell, Fin.sum_univ_succ]

/-- The affine initial guess on the distorted cell for node 6's own real
coordinate `(2, 1, 2)`. -/
theorem distorted_guessB :
    cellAffineGuess distortedCell ![(2 : ℚ), 1, 2] = ![7/5, 1, 7/5] := by
  unfold cellAffineGuess
  rw [distorted_J0]
  simp only [distorted_X0]
  funext i
  fin_cases i <;> norm_num [mulVec3, inv3f, det3f, Fin.sum_univ_succ]

/-- The distorted cell's Jacobian at that guess. -/
theorem distorted_JB : cellJ distortedCell ![7/5, 1, 7/5] =
    ![![8/5, 18/25, 3/5], ![0, 1, 0], ![3/5, 18/25, 8/5]] := by
  funext d e
  fin_cases d <;> fin_cases e <;>
    norm_num [cellJ, hex8_grad_shapefn, distortedCell, Fin.sum_univ_succ]

/-- The Newton residual at that guess. -/
theorem distorted_residB :
    cellResidual distortedCell ![(2 : ℚ), 1, 2] ![7/5, 1, 7/5] =
      ![21/25, 0, 21/25] := by
  funext d
  fin_cases d <;>
    norm_num [cellResidual, cellX, hex8_shapefn, distortedCell, Fin.sum_univ_succ]

/-- One Newton step from that guess. -/
theorem distorted_stepB :
    cellNewtonStep distortedCell ![(2 : ℚ), 1, 2] ![7/5, 1, 7/5] =
      ![56/55, 1, 56/55] := by
  funext i
  simp only [cellNewtonStep]
  rw [distorted_JB, distorted_residB]
  fin_cases i <;> norm_num [mulVec3, inv3f, det3f, Fin.sum_univ_succ]

/-- The residual after that step: still non-zero, and the first local
coordinate is `56/55`, off node 6's unit-cell corner by `1/55`. -/
theorem distorted_residB1 :
    cellResidual distortedCell ![(2 : ℚ), 1, 2] ![56/55, 1, 56/55] =
      ![441/12100, 0, 441/12100] := by
  funext d
  fin_cases d <;>
    norm_num [cellResidual, cellX, hex8_shapefn, distortedCell, Fin.sum_univ_succ]

/-- Claim C8 (counterexample, on the distorted non-affine cell with
tolerance `1e-8` - squared tolerance `1e-16` - iteration cap 1 and zero
slack): at the interior point `(1/2, 1/2, 1/2)` the solver stops
unconverged at `xi = (83/376, 1/2, 83/376)`, which lies inside `[-1, 1]` on
every axis, yet `is_point_in_cell` returns false - refuting "returns true
exactly when the computed local coordinate lies within `[-1, 1]`"; and at
node 6's own real coordinate `is_point_in_cell` also returns false, with a
computed first coordinate `56/55`, off that node's unit-cell coordinate by
`1/55`, far more than `1e-8` - refuting the node-recovery part. -/
theorem C8_point_location_counterexample :
    (is_point_in_cell distortedCell (fun _ => 1/2) (1/10^16) 1 0 = false ∧
      ∀ d : Fin 3,
        |transform_real_to_unit_cell distortedCell (fun _ => 1/2) (1/10^16) 1 d| ≤
          1 + 0) ∧
    (is_point_in_cell distortedCell (distortedCell 6) (1/10^16) 1 0 = false ∧
      1/10^8 <
        |transform_real_to_unit_cell distortedCell (distortedCell 6) (1/10^16) 1 0 -
          hex8_unit_cell 6 0|) := by
  have hngA : ¬ (cellResidualNorm2 distortedCell (fun _ => 1/2) ![1/4, 1/2, 1/4] ≤
      1/10^16) := by
    simp only [cellResidualNorm2, distorted_residA]
    norm_num [Fin.sum_univ_succ]
  have htfA : transform_real_to_unit_cell distortedCell (fun _ => 1/2) (1/10^16) 1 =
      ![83/376, 1/2, 83/376] := by
    unfold transform_real_to_unit_cell
    rw [distorted_guessA, cellNewtonIterate_one, if_neg hngA, distorted_stepA]
  have hnfA : ¬ (cellResidualNorm2 distortedCell (fun _ => 1/2) ![83/376, 1/2, 83/376] ≤
      1/10^16) := by
    simp only [cellResidualNorm2, distorted_residA1]
    norm_num [Fin.sum_univ_succ]
  have hpB : distortedCell 6 = ![(2 : ℚ), 1, 2] := rfl
  have hngB : ¬ (cellResidualNorm2 distortedCell ![(2 : ℚ), 1, 2] ![7/5, 1, 7/5] ≤
      1/10^16) := by
    simp only [cellResidualNorm2, distorted_residB]
    norm_num [Fin.sum_univ_succ]
  have htfB : transform_real_to_unit_cell distortedCell ![(2 : ℚ), 1, 2] (1/10^16) 1 =
      ![56/55, 1, 56/55] := by
    unfold transform_real_to_unit_cell
    rw [distorted_guessB, cellNewtonIterate_one, if_neg hngB, distorted_stepB]
  have hnfB : ¬ (cellResidualNorm2 distortedCell ![(2 : ℚ), 1, 2] ![56/55, 1, 56/55] ≤
      1/10^16) := by
    simp only [cellResidualNorm2, distorted_residB1]
    norm_num [Fin.sum_univ_succ]
  refine ⟨⟨?_, ?_⟩, ?_, ?_⟩
  · simp only [is_point_in_cell]
    rw [htfA, decide_eq_false hnfA, Bool.false_and]
  · intro d
    rw [htfA, abs_le]
    refine ⟨?_, ?_⟩ <;> fin_cases d <;> norm_num
  · rw [hpB]
    simp only [is_point_in_cell]
    rw [htfB, decide_eq_false hnfB, Bool.false_and]
  · rw [hpB, htfB, show hex8_unit_cell 6 0 = (1 : ℚ) from rfl]
    refine lt_abs.mpr (Or.inl ?_)
    norm_num

/-- Claim C8 (amended, spec-modelled): `is_point_in_cell` returns true
exactly when the Newton iteration converged - the computed local
coordinate's residual is within the fixed tolerance - and that coordinate
lies within `[-1, 1]` on every axis up to the slack (non-convergent points
are treated as outside); on cells with affine (parallelepiped) geometry the
iteration converges exactly, so acceptance reduces to the range test alone,
and a node's own real coordinate returns true with exactly that node's
unit-cell coordinate (in particular within `1e-8`). -/
theorem C8_point_location_amended :
    (∀ (coords : Fin 8 → Fin 3 → ℚ) (point : Fin 3 → ℚ) (tol2 : ℚ) (maxit : ℕ)
        (slack : ℚ),
      is_point_in_cell coords point tol2 maxit slack = true ↔
        (cellResidualNorm2 coords point
            (transform_real_to_unit_cell coords point tol2 maxit) ≤ tol2 ∧
          ∀ d : Fin 3,
            |transform_real_to_unit_cell coords point tol2 maxit d| ≤ 1 + slack)) ∧
    (∀ (c : Fin 3 → ℚ) (H : Fin 3 → Fin 3 → ℚ), det3f H ≠ 0 →
      ∀ tol2 : ℚ, 0 ≤ tol2 → ∀ (maxit : ℕ) (slack : ℚ), 0 ≤ slack →
      (∀ point : Fin 3 → ℚ,
        (is_point_in_cell (affineCell c H) point tol2 maxit slack = true ↔
          ∀ d : Fin 3,
            |transform_real_to_unit_cell (affineCell c H) point tol2 maxit d| ≤
              1 + slack)) ∧
      (∀ k : Fin 8,
        is_point_in_cell (affineCell c H) (affineCell c H k) tol2 maxit slack = true ∧
        ∀ d : Fin 3,
          |transform_real_to_unit_cell (affineCell c H) (affineCell c H k) tol2 maxit d -
            hex8_unit_cell k d| ≤ 1 / 10 ^ 8)) := by
  constructor
  · intro coords point tol2 maxit slack
    simp only [is_point_in_cell, Bool.and_eq_true, decide_eq_true_eq]
  intro c H hdet tol2 htol maxit slack hslack
  have hiff : ∀ point : Fin 3 → ℚ,
      is_point_in_cell (affineCell c H) point tol2 maxit slack = true ↔
        ∀ d : Fin 3,
          |transform_real_to_unit_cell (affineCell c H) point tol2 maxit d| ≤
            1 + slack := by
    intro point
    have hnorm : cellResidualNorm2 (affineCell c H) point
        (transform_real_to_unit_cell (affineCell c H) point tol2 maxit) = 0 := by
      rw [affine_transform_eq c H hdet point tol2 htol maxit]
      simp [cellResidualNorm2, affine_guess_exact c H hdet point]
    simp only [is_point_in_cell, Bool.and_eq_true, decide_eq_true_eq]
    rw [hnorm]
    simp [htol]
  refine ⟨hiff, fun k => ?_⟩
  have hxi : transform_real_to_unit_cell (affineCell c H) (affineCell c H k)
      tol2 maxit = hex8_unit_cell k := by
    rw [affine_transform_eq c H hdet _ tol2 htol maxit, affine_node_guess c H hdet k]
  constructor
  · rw [hiff, hxi]
    intro d
    have hval : hex8_unit_cell k d = (1 : ℚ) ∨ hex8_unit_cell k d = (-1 : ℚ) := by
      fin_cases k <;> fin_cases d <;> first | exact Or.inl rfl | exact Or.inr rfl
    rcases hval with h | h <;> rw [h] <;> simp <;> linarith
  · intro d
    rw [hxi]
    simp

/-- Witness for C8: the unit cube cell (`c = 0`, `H = I`), zero tolerance
and slack, 20 Newton iterations, node 0. -/
theorem C8_point_location_amended_witness :
    det3f idH ≠ 0 ∧ (0 : ℚ) ≤ 0 ∧
    (is_point_in_cell (affineCell (fun _ => 0) idH)
        (affineCell (fun _ => 0) idH 0) 0 20 0 = true ∧
      ∀ d : Fin 3,
        |transform_real_to_unit_cell (affineCell (fun _ => 0) idH)
            (affineCell (fun _ => 0) idH 0) 0 20 d - hex8_unit_cell 0 d| ≤ 1 / 10 ^ 8) := by
  have hdet : det3f idH ≠ 0 := by norm_num [det3f, idH, Fin.ext_iff]
  exact ⟨hdet, le_refl 0,
    (C8_point_location_amended.2 (fun _ => 0) idH hdet 0 (le_refl 0) 20 0 (le_refl 0)).2 0⟩
